import Mathlib

/-!
# Verification of the agent-ops sandbox lifecycle backend

Shallow embedding of the Python backend (`backend/config.py`,
`backend/sandboxes.py`, `backend/session.py`, `backend/app.py`) and proofs
about its sandbox lifecycle operations: secret composition, idle-timeout
policy, workspace-volume naming, tunnel resolution, hibernate error
handling, status reporting, and the create/restore refinement.

Python dictionaries with string keys are embedded as functions
`String → Option String` (the partial map the dict denotes); Python
strings are Lean `String`s; the remote Modal backend is abstracted by
passing its observable outcomes (snapshot result, lookup result, tunnel
map) as explicit parameters, and by recording the arguments each
operation would send to it in a plain structure.
-/

/-! ## Constants from `backend/config.py` -/

/-- Constant `DEFAULT_IDLE_TIMEOUT_SECONDS = 15 * 60` (config.py line 6). -/
def DEFAULT_IDLE_TIMEOUT_SECONDS : Nat := 15 * 60

/-- Constant `MODAL_IDLE_TIMEOUT_BUFFER_SECONDS = 30 * 60` (config.py line 7). -/
def MODAL_IDLE_TIMEOUT_BUFFER_SECONDS : Nat := 30 * 60

/-- Constant `MAX_TIMEOUT_SECONDS = 24 * 60 * 60` (config.py line 8). -/
def MAX_TIMEOUT_SECONDS : Nat := 24 * 60 * 60

/-- Constant `OPENCODE_PORT = 4096` (config.py line 9). -/
def OPENCODE_PORT : Nat := 4096

/-- Constant `GATEWAY_PORT = 9000` (config.py line 10). -/
def GATEWAY_PORT : Nat := 9000

/-- Modelled from the spec: `WHISPER_MODELS_MOUNT` is imported from
`config` by `sandboxes.py` and `app.py` but is not present in the provided
`config.py`; its value is taken from the mount path used by
`setup_whisper_models` in `app.py` ("/models/whisper"), the shared
read-only asset volume mount of spec section 4.1. -/
def WHISPER_MODELS_MOUNT : String := "/models/whisper"

/-- Modelled from the spec: `WHISPER_MODELS_VOLUME` is imported from
`config` by `sandboxes.py` and `app.py` but is not present in the provided
`config.py`; its value is taken from the volume name used by
`setup_whisper_models` in `app.py` ("whisper-models"). -/
def WHISPER_MODELS_VOLUME : String := "whisper-models"

/-- Embeds `get_secret` (config.py lines 18-20): read a secret from the ambient
process environment, embedded as an explicit map `environ`. -/
def get_secret (environ : String → Option String) (name : String)
    (default : String := "") : String :=
  match environ name with
  | some v => v
  | none => default

/-! ## Data model from `backend/sandboxes.py` -/

/-- One persona/config file payload: a Python `dict` entry of the
`persona_files: list[dict]` field, with string keys and values. -/
def PersonaFile := List (String × String)

/-- Lowercase hexadecimal digit, as produced by Python's `json` module. -/
def hexDigit (n : Nat) : Char :=
  if n < 10 then Char.ofNat (48 + n) else Char.ofNat (87 + n)

/-- Four-digit lowercase hexadecimal rendering of `n % 65536`. -/
def hex4 (n : Nat) : String :=
  String.mk [hexDigit (n / 4096 % 16), hexDigit (n / 256 % 16),
             hexDigit (n / 16 % 16), hexDigit (n % 16)]

/-- Escape one character the way `json.dumps` (default `ensure_ascii=True`)
renders it inside a JSON string literal. -/
def jsonEscapeChar (c : Char) : String :=
  if c = '"' then "\\\""
  else if c = '\\' then "\\\\"
  else if c = '\n' then "\\n"
  else if c = '\t' then "\\t"
  else if c = '\r' then "\\r"
  else if c = Char.ofNat 8 then "\\b"
  else if c = Char.ofNat 12 then "\\f"
  else if c.toNat < 32 then "\\u" ++ hex4 c.toNat
  else if c.toNat < 127 then String.singleton c
  else if c.toNat < 65536 then "\\u" ++ hex4 c.toNat
  else
    "\\u" ++ hex4 (55296 + (c.toNat - 65536) / 1024) ++
    "\\u" ++ hex4 (56320 + (c.toNat - 65536) % 1024)

/-- A JSON string literal for `s`, as `json.dumps` renders it. -/
def jsonString (s : String) : String :=
  "\"" ++ String.join (s.data.map jsonEscapeChar) ++ "\""

/-- A JSON object for one persona-file dict, with `json.dumps`'s default
`", "` and `": "` separators. -/
def jsonObject (d : PersonaFile) : String :=
  "\x7b" ++
    String.intercalate ", "
      (d.map (fun kv => jsonString kv.1 ++ ": " ++ jsonString kv.2)) ++
  "\x7d"

/-- Models `json.dumps(config.persona_files)`: a JSON array of objects
(sandboxes.py line 80). -/
def jsonDumps (files : List PersonaFile) : String :=
  "[" ++ String.intercalate ", " (files.map jsonObject) ++ "]"

/-- Structure `SandboxConfig` (sandboxes.py lines 30-41). `env_vars` is the optional
caller-supplied dict, embedded as a partial map. -/
structure SandboxConfig where
  session_id : String
  user_id : String
  workspace : String
  do_ws_url : String
  runner_token : String
  jwt_secret : String
  image_type : String := "base"
  idle_timeout_seconds : Nat := DEFAULT_IDLE_TIMEOUT_SECONDS
  env_vars : Option (String → Option String) := none
  persona_files : Option (List PersonaFile) := none

/-- A Modal image reference: `_get_image` resolves the base image from the
static recipe, while `restore_sandbox` uses `modal.Image.from_id`. -/
inductive ImageRef
  | base
  | fromId (image_id : String)
deriving DecidableEq

/-- Embeds `get_base_image` (images/base.py): the static base image recipe. -/
def get_base_image : ImageRef := ImageRef.base

/-- Embeds `SandboxManager._get_image` (sandboxes.py lines 212-216): always the
base image in phase 1, whatever `image_type` says. -/
def get_image (image_type : String) : ImageRef := get_base_image

/-- Embeds `SandboxManager.workspace_volume_name` (sandboxes.py lines 56-59):
`f"workspace-{session_id.replace(':', '-')}"`. Since the pattern and
replacement are single characters, `str.replace` is the character map
sending `':'` to `'-'`. -/
def workspace_volume_name (session_id : String) : String :=
  "workspace-" ++
    String.mk (session_id.data.map (fun c => if c = ':' then '-' else c))

/-! ## Secret composition (sandboxes.py lines 66-83 and 162-176)

`create_sandbox` and `restore_sandbox` each build `secrets_dict` by the
same four steps: copy the caller env vars (or start empty), `update` with
the five core entries, optionally add `PERSONA_FILES_JSON`, and strip
empty values. `opencode_server_password` is the value of
`get_secret("OPENCODE_SERVER_PASSWORD")` at call time. -/

/-- Embeds `dict(config.env_vars) if config.env_vars else {}` (line 66): the
caller dict when present (a `None` or empty dict both denote the empty
map). -/
def dict_or_empty (env_vars : Option (String → Option String)) :
    String → Option String :=
  fun k =>
    match env_vars with
    | some ev => ev k
    | none => none

/-- Embeds `secrets_dict.update({...})` (lines 69-75): the five core entries are
set last so they win on any key collision. The five keys are pairwise
distinct, so an if-chain renders the simultaneous update. -/
def with_core_secrets (config : SandboxConfig)
    (opencode_server_password : String) (base : String → Option String) :
    String → Option String :=
  fun k =>
    if k = "DO_WS_URL" then some config.do_ws_url
    else if k = "RUNNER_TOKEN" then some config.runner_token
    else if k = "SESSION_ID" then some config.session_id
    else if k = "JWT_SECRET" then some config.jwt_secret
    else if k = "OPENCODE_SERVER_PASSWORD" then some opencode_server_password
    else base k

/-- Embeds `if config.persona_files: secrets_dict["PERSONA_FILES_JSON"] = ...`
(lines 78-80): Python truthiness makes both `None` and the empty list skip
the assignment. -/
def with_persona_files (persona_files : Option (List PersonaFile))
    (base : String → Option String) : String → Option String :=
  fun k =>
    match persona_files with
    | some pfs =>
        if pfs.isEmpty then base k
        else if k = "PERSONA_FILES_JSON" then some (jsonDumps pfs)
        else base k
    | none => base k

/-- Embeds `{k: v for k, v in secrets_dict.items() if v}` (line 83): drop every
entry whose value is the empty string. -/
def strip_empty (m : String → Option String) : String → Option String :=
  fun k =>
    match m k with
    | some v => if v = "" then none else some v
    | none => none

/-- The `secrets_dict` that `create_sandbox` passes to
`modal.Secret.from_dict` (sandboxes.py lines 66-83, 92). -/
def create_secrets_dict (config : SandboxConfig)
    (opencode_server_password : String) : String → Option String :=
  strip_empty (with_persona_files config.persona_files
    (with_core_secrets config opencode_server_password
      (dict_or_empty config.env_vars)))

/-- The `secrets_dict` that `restore_sandbox` passes to
`modal.Secret.from_dict` (sandboxes.py lines 162-176, 185): the method
repeats the composition code of `create_sandbox` verbatim. -/
def restore_secrets_dict (config : SandboxConfig)
    (opencode_server_password : String) : String → Option String :=
  strip_empty (with_persona_files config.persona_files
    (with_core_secrets config opencode_server_password
      (dict_or_empty config.env_vars)))

/-! ## Backend call arguments (sandboxes.py lines 85-100 and 178-193) -/

/-- One `modal.Volume.from_name(name, create_if_missing=...)` reference;
`create_if_missing` defaults to `False` in Modal. -/
structure VolumeRef where
  name : String
  create_if_missing : Bool := false
deriving DecidableEq

/-- The arguments `modal.Sandbox.create` receives: everything observable
that `create_sandbox`/`restore_sandbox` send to the backend. `volumes` is
the mount-path-keyed dict, listed in insertion order. -/
structure SandboxCreateArgs where
  image : ImageRef
  entrypoint : List String
  encrypted_ports : List Nat
  timeout : Nat
  idle_timeout : Nat
  secrets : String → Option String
  volumes : List (String × VolumeRef)

/-- The backend call issued by `SandboxManager.create_sandbox`
(sandboxes.py lines 61-100). -/
def create_backend_args (config : SandboxConfig)
    (opencode_server_password : String) : SandboxCreateArgs :=
  { image := get_image config.image_type
    entrypoint := ["/bin/bash", "/start.sh"]
    encrypted_ports := [OPENCODE_PORT, GATEWAY_PORT]
    timeout := MAX_TIMEOUT_SECONDS
    idle_timeout := config.idle_timeout_seconds + MODAL_IDLE_TIMEOUT_BUFFER_SECONDS
    secrets := create_secrets_dict config opencode_server_password
    volumes := [("/workspace",
                  { name := workspace_volume_name config.session_id,
                    create_if_missing := true }),
                (WHISPER_MODELS_MOUNT, { name := WHISPER_MODELS_VOLUME })] }

/-- The backend call issued by `SandboxManager.restore_sandbox`
(sandboxes.py lines 158-193): same as create except the image comes from
`modal.Image.from_id(snapshot_image_id)`. -/
def restore_backend_args (config : SandboxConfig) (snapshot_image_id : String)
    (opencode_server_password : String) : SandboxCreateArgs :=
  { image := ImageRef.fromId snapshot_image_id
    entrypoint := ["/bin/bash", "/start.sh"]
    encrypted_ports := [OPENCODE_PORT, GATEWAY_PORT]
    timeout := MAX_TIMEOUT_SECONDS
    idle_timeout := config.idle_timeout_seconds + MODAL_IDLE_TIMEOUT_BUFFER_SECONDS
    secrets := restore_secrets_dict config opencode_server_password
    volumes := [("/workspace",
                  { name := workspace_volume_name config.session_id,
                    create_if_missing := true }),
                (WHISPER_MODELS_MOUNT, { name := WHISPER_MODELS_VOLUME })] }

/-! ## Tunnel resolution (sandboxes.py lines 102-117 and 195-210)

The backend's tunnel map keyed by container port is embedded as
`Nat → Option String` (port to URL); the `tunnel_urls` dict the methods
build is listed in its insertion order. -/

/-- Dict `tunnel_urls` as built by `create_sandbox` (lines 104-112): the
primary `opencode` entry when port 4096 is exposed, then the `gateway`
entry plus its three path-suffixed synthetic entries when port 9000 is
exposed. -/
def create_tunnel_urls (tunnels : Nat → Option String) :
    List (String × String) :=
  (match tunnels OPENCODE_PORT with
   | some url => [("opencode", url)]
   | none => []) ++
  (match tunnels GATEWAY_PORT with
   | some gateway_url =>
       [("gateway", gateway_url),
        ("vscode", gateway_url ++ "/vscode"),
        ("vnc", gateway_url ++ "/vnc"),
        ("ttyd", gateway_url ++ "/ttyd")]
   | none => [])

/-- Dict `tunnel_urls` as built by `restore_sandbox` (lines 197-205): the
method repeats the resolution code of `create_sandbox` verbatim. -/
def restore_tunnel_urls (tunnels : Nat → Option String) :
    List (String × String) :=
  (match tunnels OPENCODE_PORT with
   | some url => [("opencode", url)]
   | none => []) ++
  (match tunnels GATEWAY_PORT with
   | some gateway_url =>
       [("gateway", gateway_url),
        ("vscode", gateway_url ++ "/vscode"),
        ("vnc", gateway_url ++ "/vnc"),
        ("ttyd", gateway_url ++ "/ttyd")]
   | none => [])

/-! ## Status query (sandboxes.py lines 133-145) -/

/-- Outcome of `modal.Sandbox.from_id` as observed by the caller: either
the lookup succeeds, or it raises (not found, backend error, ...). -/
inductive LookupOutcome
  | found
  | raised (msg : String)
deriving DecidableEq

/-- The dict returned by `get_sandbox_status`. -/
structure StatusResponse where
  sandbox_id : String
  status : String
deriving DecidableEq

/-- Embeds `SandboxManager.get_sandbox_status` (sandboxes.py lines 133-145): a
successful lookup reports `running`; the bare `except Exception` folds
every lookup failure into `terminated`. Totality of this function is the
"never propagates" guarantee. -/
def get_sandbox_status (sandbox_id : String) (lookup : LookupOutcome) :
    StatusResponse :=
  match lookup with
  | LookupOutcome.found => { sandbox_id := sandbox_id, status := "running" }
  | LookupOutcome.raised _ => { sandbox_id := sandbox_id, status := "terminated" }

/-! ## Hibernate (sandboxes.py lines 147-156, app.py lines 85-106) -/

/-- Outcome of `sandbox.snapshot_filesystem(timeout=55)` as observed by
`snapshot_and_terminate`: success with an image id, a
`modal.exception.ConflictError` (the sandbox already exited), or any other
exception. -/
inductive SnapshotOutcome
  | ok (image_id : String)
  | conflictError
  | failure (msg : String)
deriving DecidableEq

/-- Result of `snapshot_and_terminate`: the snapshot image id, the
`SandboxAlreadyFinishedError` raised on `ConflictError` (it carries the
`sandbox_id`, sandboxes.py lines 22-27), or a propagated error. -/
inductive HibernateResult
  | snapshotted (image_id : String)
  | alreadyFinished (sandbox_id : String)
  | failed (msg : String)
deriving DecidableEq

/-- One run of `snapshot_and_terminate`, together with whether
`sandbox.terminate()` was issued during it. -/
structure HibernateRun where
  result : HibernateResult
  terminate_called : Bool
deriving DecidableEq

/-- Embeds `SandboxManager.snapshot_and_terminate` (sandboxes.py lines 147-156):
only a `ConflictError` is translated (to `SandboxAlreadyFinishedError`
carrying the sandbox id); any other snapshot failure propagates; in both
failure cases control leaves the method before the `terminate` call, so
terminate is only issued after a successful snapshot. -/
def snapshot_and_terminate (sandbox_id : String) (outcome : SnapshotOutcome) :
    HibernateRun :=
  match outcome with
  | SnapshotOutcome.ok image_id =>
      { result := HibernateResult.snapshotted image_id, terminate_called := true }
  | SnapshotOutcome.conflictError =>
      { result := HibernateResult.alreadyFinished sandbox_id,
        terminate_called := false }
  | SnapshotOutcome.failure msg =>
      { result := HibernateResult.failed msg, terminate_called := false }

/-- The HTTP-level outcome of the `hibernate-session` endpoint. -/
inductive HibernateHttpResponse
  | ok (snapshotImageId : String)
  | conflict (status_code : Nat) (error : String) (message : String)
  | unhandled (msg : String)
deriving DecidableEq

/-- Embeds `hibernate_session` (app.py lines 85-106): `SandboxAlreadyFinishedError`
becomes a structured 409 with the stable error code
`"sandbox_already_finished"`; any other error propagates unhandled. -/
def hibernate_session (sandbox_id : String) (outcome : SnapshotOutcome) :
    HibernateHttpResponse :=
  match (snapshot_and_terminate sandbox_id outcome).result with
  | HibernateResult.snapshotted image_id => HibernateHttpResponse.ok image_id
  | HibernateResult.alreadyFinished _ =>
      HibernateHttpResponse.conflict 409 "sandbox_already_finished"
        "Sandbox has already exited (idle timeout). Cannot hibernate."
  | HibernateResult.failed msg => HibernateHttpResponse.unhandled msg

/-! ## Session layer (session.py) and endpoint layer (app.py) -/

/-- Structure `CreateSessionRequest` (session.py lines 12-22). Note: the dataclass
declares no `persona_files` field. -/
structure CreateSessionRequest where
  session_id : String
  user_id : String
  workspace : String
  image_type : String
  do_ws_url : String
  runner_token : String
  jwt_secret : String
  idle_timeout_seconds : Nat := 900
  env_vars : Option (String → Option String) := none

/-- The `SandboxConfig` that `SessionManager.create` builds (session.py
lines 39-49): no `persona_files` argument is passed, so the dataclass
default `None` applies. -/
def SessionManager.create_config (req : CreateSessionRequest) : SandboxConfig :=
  { session_id := req.session_id
    user_id := req.user_id
    workspace := req.workspace
    do_ws_url := req.do_ws_url
    runner_token := req.runner_token
    jwt_secret := req.jwt_secret
    image_type := req.image_type
    idle_timeout_seconds := req.idle_timeout_seconds
    env_vars := req.env_vars }

/-- The `SandboxConfig` that `SessionManager.restore` builds (session.py
lines 71-81): identical construction, again without `persona_files`. -/
def SessionManager.restore_config (req : CreateSessionRequest) : SandboxConfig :=
  { session_id := req.session_id
    user_id := req.user_id
    workspace := req.workspace
    do_ws_url := req.do_ws_url
    runner_token := req.runner_token
    jwt_secret := req.jwt_secret
    image_type := req.image_type
    idle_timeout_seconds := req.idle_timeout_seconds
    env_vars := req.env_vars }

/-- The field names `CreateSessionRequest`'s generated `__init__` accepts
(session.py lines 12-22). -/
def createSessionRequestFields : List String :=
  ["session_id", "user_id", "workspace", "image_type", "do_ws_url",
   "runner_token", "jwt_secret", "idle_timeout_seconds", "env_vars"]

/-- The keyword-argument names the `create_session` handler passes to
`CreateSessionRequest(...)` (app.py lines 48-59); the `persona_files`
keyword is passed unconditionally. -/
def create_session_kwargs : List String :=
  ["session_id", "user_id", "workspace", "image_type", "do_ws_url",
   "runner_token", "jwt_secret", "idle_timeout_seconds", "env_vars",
   "persona_files"]

/-- The keyword-argument names the `restore_session` handler passes to
`CreateSessionRequest(...)` (app.py lines 130-141): the same ten. -/
def restore_session_kwargs : List String :=
  ["session_id", "user_id", "workspace", "image_type", "do_ws_url",
   "runner_token", "jwt_secret", "idle_timeout_seconds", "env_vars",
   "persona_files"]

/-- Python call semantics for a dataclass constructor: the first supplied
keyword argument that is not a declared field raises
`TypeError: __init__() got an unexpected keyword argument`. -/
def firstUnexpectedKwarg (fields kwargs : List String) : Option String :=
  kwargs.find? (fun k => ¬ fields.contains k)

/-- Control-flow outcome of an endpoint handler body: either the request
constructor raises `TypeError` (before any backend call), or the handler
proceeds to call the session manager. -/
inductive EndpointOutcome
  | typeError (kwarg : String)
  | proceeded
deriving DecidableEq

/-- The constructor step of `create_session` (app.py lines 48-59): the
handler has no exception handling, so a `TypeError` from the constructor
propagates and `session_manager.create` on line 61 is never reached. -/
def create_session_construct : EndpointOutcome :=
  match firstUnexpectedKwarg createSessionRequestFields create_session_kwargs with
  | some k => EndpointOutcome.typeError k
  | none => EndpointOutcome.proceeded

/-- The constructor step of `restore_session` (app.py lines 130-141);
`session_manager.restore` on line 143 is only reached on `proceeded`. -/
def restore_session_construct : EndpointOutcome :=
  match firstUnexpectedKwarg createSessionRequestFields restore_session_kwargs with
  | some k => EndpointOutcome.typeError k
  | none => EndpointOutcome.proceeded

/-! ## Helper lemmas about secret composition -/

/-- Method `restore_sandbox` composes its secrets by the very same code as
`create_sandbox`, so the two dictionaries coincide definitionally. -/
theorem restore_secrets_dict_eq_create (config : SandboxConfig) (pw : String) :
    restore_secrets_dict config pw = create_secrets_dict config pw := rfl

/-- The empty-value strip never leaves an empty-string value behind. -/
theorem strip_empty_ne_some_empty (m : String → Option String) (k : String) :
    strip_empty m k ≠ some "" := by
  simp only [strip_empty]
  cases hm : m k with
  | none => simp
  | some v => by_cases hv : v = "" <;> simp [hv]

/-- Membership in the stripped map: present exactly when present upstream
with a non-empty value. -/
theorem strip_empty_eq_some (m : String → Option String) (k v : String) :
    strip_empty m k = some v ↔ m k = some v ∧ v ≠ "" := by
  simp only [strip_empty]
  cases hm : m k with
  | none => simp
  | some w =>
    by_cases hw : w = ""
    · subst hw
      simp only [if_pos rfl]
      constructor
      · intro h; exact absurd h (by simp)
      · rintro ⟨h, hv⟩; exact absurd (Option.some.inj h).symm hv
    · simp only [if_neg hw, Option.some.injEq]
      constructor
      · intro h; exact ⟨h, fun hv => hw (h.trans hv)⟩
      · intro h; exact h.1

/-- The persona step only touches the `PERSONA_FILES_JSON` key. -/
theorem with_persona_files_ne_json (persona_files : Option (List PersonaFile))
    (base : String → Option String) (k : String)
    (hk : k ≠ "PERSONA_FILES_JSON") :
    with_persona_files persona_files base k = base k := by
  simp only [with_persona_files]
  cases persona_files with
  | none => rfl
  | some pfs =>
    by_cases hE : pfs.isEmpty
    · simp [hE]
    · simp [hE, hk]

/-- The composed dictionary at `DO_WS_URL`: always the config's value,
stripped when empty — whatever the caller supplied. -/
theorem create_secrets_dict_do_ws_url (config : SandboxConfig) (pw : String) :
    create_secrets_dict config pw "DO_WS_URL" =
      if config.do_ws_url = "" then none else some config.do_ws_url := by
  simp only [create_secrets_dict, strip_empty]
  rw [with_persona_files_ne_json _ _ _ (by decide)]
  rfl

/-- The composed dictionary at `RUNNER_TOKEN`. -/
theorem create_secrets_dict_runner_token (config : SandboxConfig) (pw : String) :
    create_secrets_dict config pw "RUNNER_TOKEN" =
      if config.runner_token = "" then none else some config.runner_token := by
  simp only [create_secrets_dict, strip_empty]
  rw [with_persona_files_ne_json _ _ _ (by decide)]
  rfl

/-- The composed dictionary at `SESSION_ID`. -/
theorem create_secrets_dict_session_id (config : SandboxConfig) (pw : String) :
    create_secrets_dict config pw "SESSION_ID" =
      if config.session_id = "" then none else some config.session_id := by
  simp only [create_secrets_dict, strip_empty]
  rw [with_persona_files_ne_json _ _ _ (by decide)]
  rfl

/-- The composed dictionary at `JWT_SECRET`. -/
theorem create_secrets_dict_jwt_secret (config : SandboxConfig) (pw : String) :
    create_secrets_dict config pw "JWT_SECRET" =
      if config.jwt_secret = "" then none else some config.jwt_secret := by
  simp only [create_secrets_dict, strip_empty]
  rw [with_persona_files_ne_json _ _ _ (by decide)]
  rfl

/-- The composed dictionary at `OPENCODE_SERVER_PASSWORD`. -/
theorem create_secrets_dict_opencode_password (config : SandboxConfig)
    (pw : String) :
    create_secrets_dict config pw "OPENCODE_SERVER_PASSWORD" =
      if pw = "" then none else some pw := by
  simp only [create_secrets_dict, strip_empty]
  rw [with_persona_files_ne_json _ _ _ (by decide)]
  rfl

/-- A caller key that collides with none of the six reserved keys survives
composition with its own (non-empty) value. -/
theorem create_secrets_dict_caller_key (config : SandboxConfig) (pw : String)
    (ev : String → Option String) (henv : config.env_vars = some ev)
    (k v : String)
    (hk1 : k ≠ "DO_WS_URL") (hk2 : k ≠ "RUNNER_TOKEN") (hk3 : k ≠ "SESSION_ID")
    (hk4 : k ≠ "JWT_SECRET") (hk5 : k ≠ "OPENCODE_SERVER_PASSWORD")
    (hk6 : k ≠ "PERSONA_FILES_JSON")
    (hv : ev k = some v) (hne : v ≠ "") :
    create_secrets_dict config pw k = some v := by
  simp only [create_secrets_dict, strip_empty]
  rw [with_persona_files_ne_json _ _ _ hk6]
  simp only [with_core_secrets, dict_or_empty, henv]
  rw [if_neg hk1, if_neg hk2, if_neg hk3, if_neg hk4, if_neg hk5, hv]
  simp [hne]

/-! ## Claim C1 — core secrets win over caller env vars -/

/-- Concrete configuration with an empty core value (`do_ws_url = ""`),
used to refute claim C1 as literally stated. -/
def cfgC1 : SandboxConfig :=
  { session_id := "sess-1", user_id := "user-1", workspace := "ws",
    do_ws_url := "", runner_token := "tok", jwt_secret := "jwt" }

/-- Claim C1 (counterexample): The claim quantifies over *every*
`SandboxConfig`, but when a core value is the empty string the final strip
removes the key, so the composed dictionary does not assign that core key
the config's core value: with `do_ws_url = ""` the `DO_WS_URL` entry is
absent rather than `some ""`. -/
theorem C1_counterexample :
    create_secrets_dict cfgC1 "" "DO_WS_URL" ≠ some cfgC1.do_ws_url := by
  decide

/-- Claim C1 (amended): For every `SandboxConfig` whose four core identity
values are non-empty and every caller-supplied `env_vars` map, the secrets
dictionary that `create_sandbox` and `restore_sandbox` pass to the backend
assigns each core key (`SESSION_ID`, `DO_WS_URL`, `RUNNER_TOKEN`,
`JWT_SECRET`) the config's core value, never the caller's value for that
key; and every caller key that collides with none of the reserved keys
(the five core keys and `PERSONA_FILES_JSON`) and carries a non-empty
value is preserved with the caller's value. -/
theorem C1_core_secrets_win (config : SandboxConfig) (pw : String)
    (hdw : config.do_ws_url ≠ "") (hrt : config.runner_token ≠ "")
    (hsid : config.session_id ≠ "") (hjw : config.jwt_secret ≠ "") :
    (create_secrets_dict config pw "SESSION_ID" = some config.session_id ∧
     create_secrets_dict config pw "DO_WS_URL" = some config.do_ws_url ∧
     create_secrets_dict config pw "RUNNER_TOKEN" = some config.runner_token ∧
     create_secrets_dict config pw "JWT_SECRET" = some config.jwt_secret) ∧
    (restore_secrets_dict config pw "SESSION_ID" = some config.session_id ∧
     restore_secrets_dict config pw "DO_WS_URL" = some config.do_ws_url ∧
     restore_secrets_dict config pw "RUNNER_TOKEN" = some config.runner_token ∧
     restore_secrets_dict config pw "JWT_SECRET" = some config.jwt_secret) ∧
    (∀ ev, config.env_vars = some ev →
      ∀ k v, ev k = some v → v ≠ "" →
        k ∉ ["DO_WS_URL", "RUNNER_TOKEN", "SESSION_ID", "JWT_SECRET",
             "OPENCODE_SERVER_PASSWORD", "PERSONA_FILES_JSON"] →
        create_secrets_dict config pw k = some v ∧
        restore_secrets_dict config pw k = some v) := by
  refine ⟨⟨?_, ?_, ?_, ?_⟩, ⟨?_, ?_, ?_, ?_⟩, ?_⟩
  · rw [create_secrets_dict_session_id, if_neg hsid]
  · rw [create_secrets_dict_do_ws_url, if_neg hdw]
  · rw [create_secrets_dict_runner_token, if_neg hrt]
  · rw [create_secrets_dict_jwt_secret, if_neg hjw]
  · rw [restore_secrets_dict_eq_create, create_secrets_dict_session_id, if_neg hsid]
  · rw [restore_secrets_dict_eq_create, create_secrets_dict_do_ws_url, if_neg hdw]
  · rw [restore_secrets_dict_eq_create, create_secrets_dict_runner_token, if_neg hrt]
  · rw [restore_secrets_dict_eq_create, create_secrets_dict_jwt_secret, if_neg hjw]
  · intro ev henv k v hv hne hk
    simp only [List.mem_cons, List.not_mem_nil, or_false, not_or] at hk
    obtain ⟨hk1, hk2, hk3, hk4, hk5, hk6⟩ := hk
    refine ⟨?_, ?_⟩
    · exact create_secrets_dict_caller_key config pw ev henv k v hk1 hk2 hk3 hk4 hk5 hk6 hv hne
    · rw [restore_secrets_dict_eq_create]
      exact create_secrets_dict_caller_key config pw ev henv k v hk1 hk2 hk3 hk4 hk5 hk6 hv hne

/-- The caller env map of end-to-end scenario B: an innocuous key plus an
attempt to override `SESSION_ID`. -/
def evB : String → Option String :=
  fun k =>
    if k = "ANTHROPIC_API_KEY" then some "x"
    else if k = "SESSION_ID" then some "malicious" else none

/-- The configuration of end-to-end scenario B. -/
def cfgB : SandboxConfig :=
  { session_id := "sess_real", user_id := "user-1", workspace := "ws",
    do_ws_url := "wss://do.example/ws", runner_token := "tok",
    jwt_secret := "jwt", env_vars := some evB }

/-- Claim C1 (witness): Scenario B: the composed dictionary keeps the real
session id, not `"malicious"`, and preserves `ANTHROPIC_API_KEY = "x"`, in
both create and restore. -/
theorem C1_core_secrets_win_witness :
    create_secrets_dict cfgB "" "SESSION_ID" = some "sess_real" ∧
    create_secrets_dict cfgB "" "ANTHROPIC_API_KEY" = some "x" ∧
    restore_secrets_dict cfgB "" "SESSION_ID" = some "sess_real" ∧
    restore_secrets_dict cfgB "" "ANTHROPIC_API_KEY" = some "x" := by
  have h := C1_core_secrets_win cfgB "" (by decide) (by decide) (by decide) (by decide)
  have hc := h.2.2 evB rfl "ANTHROPIC_API_KEY" "x" rfl (by decide) (by decide)
  exact ⟨h.1.1, hc.1, h.2.1.1, hc.2⟩

/-! ## Claim C2 — no empty values, non-empty core values survive -/

/-- Claim C2 (confirmed): For every secret-composition input (any caller
`env_vars`, any core values, possibly empty), the merged dictionary of
both `create_sandbox` and `restore_sandbox` maps no key to the empty
string, and every core secret key whose core value is non-empty is present
with exactly that core value. -/
theorem C2_no_empty_values (config : SandboxConfig) (pw : String) :
    (∀ k, create_secrets_dict config pw k ≠ some "") ∧
    (∀ k, restore_secrets_dict config pw k ≠ some "") ∧
    (config.do_ws_url ≠ "" →
      create_secrets_dict config pw "DO_WS_URL" = some config.do_ws_url ∧
      restore_secrets_dict config pw "DO_WS_URL" = some config.do_ws_url) ∧
    (config.runner_token ≠ "" →
      create_secrets_dict config pw "RUNNER_TOKEN" = some config.runner_token ∧
      restore_secrets_dict config pw "RUNNER_TOKEN" = some config.runner_token) ∧
    (config.session_id ≠ "" →
      create_secrets_dict config pw "SESSION_ID" = some config.session_id ∧
      restore_secrets_dict config pw "SESSION_ID" = some config.session_id) ∧
    (config.jwt_secret ≠ "" →
      create_secrets_dict config pw "JWT_SECRET" = some config.jwt_secret ∧
      restore_secrets_dict config pw "JWT_SECRET" = some config.jwt_secret) ∧
    (pw ≠ "" →
      create_secrets_dict config pw "OPENCODE_SERVER_PASSWORD" = some pw ∧
      restore_secrets_dict config pw "OPENCODE_SERVER_PASSWORD" = some pw) := by
  refine ⟨?_, ?_, ?_, ?_, ?_, ?_, ?_⟩
  · intro k; exact strip_empty_ne_some_empty _ k
  · intro k; rw [restore_secrets_dict_eq_create]
    exact strip_empty_ne_some_empty _ k
  · intro h
    rw [restore_secrets_dict_eq_create, create_secrets_dict_do_ws_url, if_neg h]
    exact ⟨rfl, rfl⟩
  · intro h
    rw [restore_secrets_dict_eq_create, create_secrets_dict_runner_token, if_neg h]
    exact ⟨rfl, rfl⟩
  · intro h
    rw [restore_secrets_dict_eq_create, create_secrets_dict_session_id, if_neg h]
    exact ⟨rfl, rfl⟩
  · intro h
    rw [restore_secrets_dict_eq_create, create_secrets_dict_jwt_secret, if_neg h]
    exact ⟨rfl, rfl⟩
  · intro h
    rw [restore_secrets_dict_eq_create, create_secrets_dict_opencode_password, if_neg h]
    exact ⟨rfl, rfl⟩

/-- Concrete configuration used to witness C2. -/
def cfgC2 : SandboxConfig :=
  { session_id := "sess:2", user_id := "u", workspace := "w",
    do_ws_url := "wss://do", runner_token := "rt", jwt_secret := "jw" }

/-- Claim C2 (witness): C2 evaluated at a concrete configuration. -/
theorem C2_no_empty_values_witness :
    create_secrets_dict cfgC2 "pw" "DO_WS_URL" = some "wss://do" ∧
    create_secrets_dict cfgC2 "pw" "SESSION_ID" = some "sess:2" ∧
    create_secrets_dict cfgC2 "pw" "OPENCODE_SERVER_PASSWORD" = some "pw" ∧
    restore_secrets_dict cfgC2 "pw" "JWT_SECRET" = some "jw" ∧
    create_secrets_dict cfgC2 "pw" "ANTHROPIC_API_KEY" ≠ some "" := by
  have h := C2_no_empty_values cfgC2 "pw"
  exact ⟨(h.2.2.1 (by decide)).1, (h.2.2.2.2.1 (by decide)).1,
         (h.2.2.2.2.2.2 (by decide)).1, (h.2.2.2.2.2.1 (by decide)).2,
         h.1 "ANTHROPIC_API_KEY"⟩

/-! ## Claim C3 — idle timeout buffer, applied consistently -/

/-- Claim C3 (confirmed): For every `SandboxConfig`, the idle-timeout value
passed to the backend equals `config.idle_timeout_seconds` plus the fixed
safety buffer `MODAL_IDLE_TIMEOUT_BUFFER_SECONDS`, in `create_sandbox` and
`restore_sandbox` alike. -/
theorem C3_idle_timeout_buffer (config : SandboxConfig)
    (snapshot_image_id opencode_server_password : String) :
    (create_backend_args config opencode_server_password).idle_timeout =
      config.idle_timeout_seconds + MODAL_IDLE_TIMEOUT_BUFFER_SECONDS ∧
    (restore_backend_args config snapshot_image_id
        opencode_server_password).idle_timeout =
      config.idle_timeout_seconds + MODAL_IDLE_TIMEOUT_BUFFER_SECONDS :=
  ⟨rfl, rfl⟩

/-! ## Claim C4 — hibernate's "already exited" conflict is distinguishable -/

/-- Claim C4 (confirmed): For every `sandbox_id`, when the backend snapshot
call fails with the "already exited" conflict, `snapshot_and_terminate`
raises `SandboxAlreadyFinishedError` carrying that `sandbox_id` — surfaced
by the endpoint as a structured 409 with the stable error code
`"sandbox_already_finished"` — and no terminate call is issued; on any
other snapshot failure terminate is likewise not attempted and the error
propagates unhandled. -/
theorem C4_hibernate_conflict (sandbox_id msg : String) :
    snapshot_and_terminate sandbox_id SnapshotOutcome.conflictError =
      { result := HibernateResult.alreadyFinished sandbox_id,
        terminate_called := false } ∧
    hibernate_session sandbox_id SnapshotOutcome.conflictError =
      HibernateHttpResponse.conflict 409 "sandbox_already_finished"
        "Sandbox has already exited (idle timeout). Cannot hibernate." ∧
    snapshot_and_terminate sandbox_id (SnapshotOutcome.failure msg) =
      { result := HibernateResult.failed msg, terminate_called := false } ∧
    hibernate_session sandbox_id (SnapshotOutcome.failure msg) =
      HibernateHttpResponse.unhandled msg :=
  ⟨rfl, rfl, rfl, rfl⟩

/-! ## Claim C5 — status is total and collapses failures to `terminated` -/

/-- Claim C5 (confirmed): For every `sandbox_id`, `get_sandbox_status`
returns a record carrying the same `sandbox_id`, with status `"running"`
when the backend lookup succeeds and `"terminated"` whenever the lookup
raises, for any reason; being a total function of the lookup outcome, it
never propagates the lookup failure. -/
theorem C5_status_never_propagates (sandbox_id msg : String) :
    get_sandbox_status sandbox_id LookupOutcome.found =
      { sandbox_id := sandbox_id, status := "running" } ∧
    get_sandbox_status sandbox_id (LookupOutcome.raised msg) =
      { sandbox_id := sandbox_id, status := "terminated" } ∧
    (∀ lookup : LookupOutcome,
      (get_sandbox_status sandbox_id lookup).sandbox_id = sandbox_id) :=
  ⟨rfl, rfl, fun lookup => by cases lookup <;> rfl⟩

/-! ## Claim C6 — tunnel resolution is total over the two known ports -/

/-- Claim C6 (confirmed): Over every subset of the two well-known ports:
only the gateway port present yields exactly the four entries `gateway`,
`vscode`, `vnc`, `ttyd` (the last three path-suffixed from the gateway
URL); only the primary port present yields exactly the `opencode` entry;
neither present yields the empty map — identically in `create_sandbox` and
`restore_sandbox`, and resolution is a total function (it raises
nothing). -/
theorem C6_tunnel_resolution_total (gateway_url opencode_url : String) :
    create_tunnel_urls
        (fun p => if p = GATEWAY_PORT then some gateway_url else none) =
      [("gateway", gateway_url), ("vscode", gateway_url ++ "/vscode"),
       ("vnc", gateway_url ++ "/vnc"), ("ttyd", gateway_url ++ "/ttyd")] ∧
    create_tunnel_urls
        (fun p => if p = OPENCODE_PORT then some opencode_url else none) =
      [("opencode", opencode_url)] ∧
    create_tunnel_urls (fun _ => none) = [] ∧
    restore_tunnel_urls
        (fun p => if p = GATEWAY_PORT then some gateway_url else none) =
      [("gateway", gateway_url), ("vscode", gateway_url ++ "/vscode"),
       ("vnc", gateway_url ++ "/vnc"), ("ttyd", gateway_url ++ "/ttyd")] ∧
    restore_tunnel_urls
        (fun p => if p = OPENCODE_PORT then some opencode_url else none) =
      [("opencode", opencode_url)] ∧
    restore_tunnel_urls (fun _ => none) = [] :=
  ⟨rfl, rfl, rfl, rfl, rfl, rfl⟩

/-! ## Claim C8 — restore refines create -/

/-- Claim C8 (confirmed): For every `SandboxConfig` and `snapshot_image_id`,
`restore_sandbox` sends the backend the same secrets dictionary, idle and
wall-clock timeouts, exposed ports, entry command and volume attachments
as `create_sandbox`, and resolves tunnel URLs by the same function of the
backend's tunnel map; only the image differs — resolved from the snapshot
image ID instead of from `config.image_type`. -/
theorem C8_restore_refines_create (config : SandboxConfig)
    (snapshot_image_id opencode_server_password : String) :
    ((restore_backend_args config snapshot_image_id
        opencode_server_password).secrets =
      (create_backend_args config opencode_server_password).secrets) ∧
    ((restore_backend_args config snapshot_image_id
        opencode_server_password).idle_timeout =
      (create_backend_args config opencode_server_password).idle_timeout) ∧
    ((restore_backend_args config snapshot_image_id
        opencode_server_password).timeout =
      (create_backend_args config opencode_server_password).timeout) ∧
    ((restore_backend_args config snapshot_image_id
        opencode_server_password).encrypted_ports =
      (create_backend_args config opencode_server_password).encrypted_ports) ∧
    ((restore_backend_args config snapshot_image_id
        opencode_server_password).entrypoint =
      (create_backend_args config opencode_server_password).entrypoint) ∧
    ((restore_backend_args config snapshot_image_id
        opencode_server_password).volumes =
      (create_backend_args config opencode_server_password).volumes) ∧
    ((restore_backend_args config snapshot_image_id
        opencode_server_password).image = ImageRef.fromId snapshot_image_id) ∧
    ((create_backend_args config opencode_server_password).image =
      get_image config.image_type) ∧
    (∀ tunnels, restore_tunnel_urls tunnels = create_tunnel_urls tunnels) :=
  ⟨rfl, rfl, rfl, rfl, rfl, rfl, rfl, rfl, fun _ => rfl⟩

/-! ## Claim C10 — persona files cannot reach `SandboxConfig` -/

/-- Claim C10 (confirmed): The `create_session` and `restore_session`
handlers construct `CreateSessionRequest` with a `persona_files` keyword
argument the dataclass does not declare, so the construction raises
`TypeError` before any backend call; and `SessionManager.create` and
`SessionManager.restore` build their `SandboxConfig` without a
`persona_files` argument, so it always holds the default `None`. -/
theorem C10_persona_files_unreachable :
    create_session_construct = EndpointOutcome.typeError "persona_files" ∧
    restore_session_construct = EndpointOutcome.typeError "persona_files" ∧
    (∀ req : CreateSessionRequest,
      (SessionManager.create_config req).persona_files = none ∧
      (SessionManager.restore_config req).persona_files = none) :=
  ⟨rfl, rfl, fun _ => ⟨rfl, rfl⟩⟩

/-! ## Claim C7 — volume naming: deterministic, but not injective -/

/-- Sanitization is the identity on colon-free character lists. -/
theorem sanitize_map_id (l : List Char) (hl : ':' ∉ l) :
    l.map (fun c => if c = ':' then '-' else c) = l := by
  induction l with
  | nil => rfl
  | cons c cs ih =>
    have hc : c ≠ ':' := fun e => hl (by simp [e])
    have hcs : ':' ∉ cs := fun hm => hl (by simp [hm])
    simp [hc, ih hcs]

/-- Claim C7 (counterexample): The naming function is not injective over
session IDs that may contain both `':'` and `'-'`: the sanitization
identifies `"a:b"` with `"a-b"`. -/
theorem C7_counterexample :
    workspace_volume_name "a:b" = workspace_volume_name "a-b" ∧
    ("a:b" : String) ≠ "a-b" := by
  constructor
  · rfl
  · decide

/-- Claim C7 (amended): The workspace volume name is a pure, deterministic,
total function of `session_id` (it is a Lean function of the session id
alone, so two calls on the same id give the same name), and it is
injective over session IDs containing no colon — the character the
sanitization collapses into `'-'`. -/
theorem C7_volume_name_injective (s1 s2 : String)
    (h1 : ':' ∉ s1.data) (h2 : ':' ∉ s2.data)
    (h : workspace_volume_name s1 = workspace_volume_name s2) :
    s1 = s2 := by
  obtain ⟨l1⟩ := s1
  obtain ⟨l2⟩ := s2
  simp only [workspace_volume_name] at h
  have hd : "workspace-".data ++ l1.map (fun c => if c = ':' then '-' else c) =
      "workspace-".data ++ l2.map (fun c => if c = ':' then '-' else c) :=
    congrArg String.data h
  have hm := List.append_cancel_left hd
  rw [sanitize_map_id l1 h1, sanitize_map_id l2 h2] at hm
  exact congrArg String.mk hm

/-- Claim C7 (witness): The injectivity theorem applied at a concrete
colon-free session id. -/
theorem C7_volume_name_injective_witness :
    (':' ∉ ("sess-7" : String).data) ∧
    workspace_volume_name "sess-7" = workspace_volume_name "sess-7" ∧
    ("sess-7" : String) = "sess-7" :=
  ⟨by decide, rfl, C7_volume_name_injective "sess-7" "sess-7" (by decide) (by decide) rfl⟩

/-! ## Claim C9 — end-to-end scenario A -/

/-- The configuration of end-to-end scenario A: idle timeout 900, no
caller env vars, no persona files. -/
def cfgC9 : SandboxConfig :=
  { session_id := "sess-9", user_id := "u", workspace := "w",
    do_ws_url := "wss://do", runner_token := "rt", jwt_secret := "jw",
    idle_timeout_seconds := 900 }

/-- Claim C9 (counterexample): The claim says the secrets bundle contains
exactly the four core keys with non-empty values; but the code also
injects the ambient `OPENCODE_SERVER_PASSWORD` secret, so whenever that
ambient value is non-empty the bundle contains a fifth key that is not
among the four. -/
theorem C9_counterexample :
    create_secrets_dict cfgC9 "pw1" "OPENCODE_SERVER_PASSWORD" = some "pw1" ∧
    "OPENCODE_SERVER_PASSWORD" ∉
      ["DO_WS_URL", "RUNNER_TOKEN", "SESSION_ID", "JWT_SECRET"] := by
  exact ⟨by decide, by decide⟩

/-- Claim C9 (amended): For a Create call with `idle_timeout_seconds = 900`,
no caller env vars and no persona files, the backend receives an idle
timeout of at least 900 seconds (the requested value plus the policy
buffer), and the secrets bundle contains exactly the non-empty-valued
keys among the five core keys — the four session core keys plus
`OPENCODE_SERVER_PASSWORD` drawn from the ambient environment — each with
its core value, and no caller-supplied keys. -/
theorem C9_scenario_a (config : SandboxConfig) (pw : String)
    (henv : config.env_vars = none) (hpf : config.persona_files = none)
    (hidle : config.idle_timeout_seconds = 900) :
    900 ≤ (create_backend_args config pw).idle_timeout ∧
    (∀ k v, create_secrets_dict config pw k = some v →
      v ≠ "" ∧
      (k, v) ∈ [("DO_WS_URL", config.do_ws_url),
                ("RUNNER_TOKEN", config.runner_token),
                ("SESSION_ID", config.session_id),
                ("JWT_SECRET", config.jwt_secret),
                ("OPENCODE_SERVER_PASSWORD", pw)]) ∧
    (∀ k v,
      (k, v) ∈ [("DO_WS_URL", config.do_ws_url),
                ("RUNNER_TOKEN", config.runner_token),
                ("SESSION_ID", config.session_id),
                ("JWT_SECRET", config.jwt_secret),
                ("OPENCODE_SERVER_PASSWORD", pw)] → v ≠ "" →
      create_secrets_dict config pw k = some v) := by
  refine ⟨?_, ?_, ?_⟩
  · simp only [create_backend_args, hidle]
    exact Nat.le_add_right 900 MODAL_IDLE_TIMEOUT_BUFFER_SECONDS
  · intro k v h
    simp only [create_secrets_dict] at h
    rw [strip_empty_eq_some] at h
    refine ⟨h.2, ?_⟩
    have h1 := h.1
    rw [hpf] at h1
    simp only [with_persona_files] at h1
    simp only [with_core_secrets, dict_or_empty, henv] at h1
    by_cases e1 : k = "DO_WS_URL"
    · rw [if_pos e1] at h1
      subst e1
      simp [← Option.some.inj h1]
    rw [if_neg e1] at h1
    by_cases e2 : k = "RUNNER_TOKEN"
    · rw [if_pos e2] at h1
      subst e2
      simp [← Option.some.inj h1]
    rw [if_neg e2] at h1
    by_cases e3 : k = "SESSION_ID"
    · rw [if_pos e3] at h1
      subst e3
      simp [← Option.some.inj h1]
    rw [if_neg e3] at h1
    by_cases e4 : k = "JWT_SECRET"
    · rw [if_pos e4] at h1
      subst e4
      simp [← Option.some.inj h1]
    rw [if_neg e4] at h1
    by_cases e5 : k = "OPENCODE_SERVER_PASSWORD"
    · rw [if_pos e5] at h1
      subst e5
      simp [← Option.some.inj h1]
    rw [if_neg e5] at h1
    exact absurd h1 (by simp)
  · intro k v hmem hv
    simp only [List.mem_cons, List.not_mem_nil, or_false, Prod.mk.injEq] at hmem
    rcases hmem with ⟨rfl, rfl⟩ | ⟨rfl, rfl⟩ | ⟨rfl, rfl⟩ | ⟨rfl, rfl⟩ | ⟨rfl, rfl⟩
    · rw [create_secrets_dict_do_ws_url, if_neg hv]
    · rw [create_secrets_dict_runner_token, if_neg hv]
    · rw [create_secrets_dict_session_id, if_neg hv]
    · rw [create_secrets_dict_jwt_secret, if_neg hv]
    · rw [create_secrets_dict_opencode_password, if_neg hv]

/-- Claim C9 (witness): Scenario A at a concrete configuration with an
empty ambient password: the backend idle timeout is at least 900 and the
core session id entry is present. -/
theorem C9_scenario_a_witness :
    900 ≤ (create_backend_args cfgC9 "").idle_timeout ∧
    create_secrets_dict cfgC9 "" "SESSION_ID" = some "sess-9" := by
  have h := C9_scenario_a cfgC9 "" rfl rfl rfl
  exact ⟨h.1, h.2.2 "SESSION_ID" "sess-9" (by decide) (by decide)⟩
